import Mathlib

/-!
# Verification of the sws scheduler core

Shallow embedding of the C web-server scheduler (`scheduler.c` / the
canonical revision in `part_000`, plus `sws.c` in `part_002`) and proofs
about the claims of its specification.

Conventions of the embedding:
* `long long` byte counters (`snt_bytes`, `tot_bytes`) are modelled as `Nat`:
  all values that arise are nonnegative and far below 2^63, so machine
  wrap-around never matters for the properties considered here.
* C pointers passed by value are modelled by Lean values.  When the callee
  frees the object, the caller's local copy still holds the old field
  values; the embedding records explicitly when a free has happened
  (`deletedBySched` flags and the `.deleted` constructor) so that
  use-after-free behaviour of the source is visible, not hidden.
* I/O is modelled by an environment: the actual number of bytes the file
  holds (`fileLen`) and whether each socket `write` call succeeds.
  `fread` on a binary stream returns the number of bytes read, which is
  `min 8192 (fileLen - position)` for a sequential reader; since the
  return type `size_t` is cast to `int` and is at most 8192, the
  `len < 0` branch of `scheduler_serve` is unreachable and the model
  makes the read length a `Nat`.
-/

/-- MAX_HTTP_SIZE from scheduler.c: size of the scratch I/O buffer. -/
def MAX_HTTP_SIZE : Nat := 8192

/-- `queue_level` from scheduler.h: the MLQF tier stored in `rcb.status`
(RCB_8K, RCB_64K, RCB_RR). -/
inductive QueueLevel where
  | rcb8K : QueueLevel
  | rcb64K : QueueLevel
  | rcbRR : QueueLevel
deriving Repr, DecidableEq

/-- Numeric value of a tier, matching the C enum (RCB_8K = 0, RCB_64K = 1,
RCB_RR = 2); `status++` in the C source is addition on this value. -/
def QueueLevel.toNat : QueueLevel → Nat
  | .rcb8K => 0
  | .rcb64K => 1
  | .rcbRR => 2

/-- `status++` as performed by mlqf_serve on an RCB_8K or RCB_64K block. -/
def QueueLevel.succ : QueueLevel → QueueLevel
  | .rcb8K => .rcb64K
  | .rcb64K => .rcbRR
  | .rcbRR => .rcbRR

/-- `struct rcb` from scheduler.h restricted to the fields the scheduler
logic reads: sequence number, client socket fd, whether `fopen` succeeded
(`file != NULL`), byte counters and the MLQF tier.  The `next` link is
represented by list structure in the queue embeddings; `request` (the
path string) never influences scheduling. -/
structure Rcb where
  seq_num : Nat
  fd : Int
  fileOpen : Bool
  snt_bytes : Nat
  tot_bytes : Nat
  status : QueueLevel
deriving Repr, DecidableEq

/-- `rcb_new` from part_000: a freshly constructed RCB has `snt_bytes = 0`
and `status = RCB_8K`. -/
def rcb_new (seq : Nat) (fd : Int) (fileOpen : Bool) (tot : Nat) : Rcb :=
  { seq_num := seq, fd := fd, fileOpen := fileOpen,
    snt_bytes := 0, tot_bytes := tot, status := .rcb8K }

/-- I/O events a serve slice performs, in order: a file read of `n` bytes
or a socket write of `n` bytes. -/
inductive IoEvent where
  | fileRead (n : Nat) : IoEvent
  | sockWrite (n : Nat) : IoEvent
  | sockWriteFailed : IoEvent
deriving Repr, DecidableEq

/-- Result of one `scheduler_serve` call.  `deleted r` means the function
called `delete(request)` (freeing the RCB, closing fd and file) and `r`
records the field values at the moment of the free; `ok r` means it
returned normally with the RCB updated to `r`. -/
inductive ServeResult where
  | deleted (r : Rcb) (events : List IoEvent) : ServeResult
  | ok (r : Rcb) (events : List IoEvent) : ServeResult
deriving Repr, DecidableEq

/-- `scheduler_serve` from part_000 lines 171-194, for one slice.
`fileLen` is the number of bytes the opened file actually holds;
`writeOk` is whether the `write` call on the socket succeeds.
`fread` returns `min MAX_HTTP_SIZE (fileLen - snt_bytes)` for a
sequential reader whose position equals the bytes read so far (the code
adds the read length to `snt_bytes` before attempting the write, so
position and `snt_bytes` coincide).  The `len < 0` check after `fread`
cannot fire (`size_t` result ≤ 8192 cast to `int`), so no read-error
branch exists; a read error surfaces as `len = 0`. -/
def scheduler_serve (r : Rcb) (fileLen : Nat) (writeOk : Bool) : ServeResult :=
  let len := min MAX_HTTP_SIZE (fileLen - r.snt_bytes)
  let r' := { r with snt_bytes := r.snt_bytes + len }
  if len > 0 then
    if writeOk then .ok r' [.fileRead len, .sockWrite len]
    else .deleted r' [.fileRead len, .sockWriteFailed]
  else .ok r' [.fileRead len]

/-- What a policy-level serve did with the RCB after its slice(s).
`deletedBySched` is true when `scheduler_serve` freed the RCB during the
call; `reenqueued` holds the RCB value passed to `sched->insert` (the C
caller's stale by-value pointer when `deletedBySched` is true);
`destroyedByPolicy` is true when the policy-level serve itself called
`delete`. -/
structure PolicyServeOutcome where
  deletedBySched : Bool
  reenqueued : Option Rcb
  destroyedByPolicy : Bool
  events : List IoEvent
deriving Repr, DecidableEq

/-- `rr_serve` from part_000 lines 439-452.  The C parameter `request` is
a by-value pointer copy, so the `if (request)` guard after
`scheduler_serve` always sees the original non-null pointer even when
`scheduler_serve` has freed the block; the subsequent field reads observe
the values present at free time.  The embedding therefore applies the
same `snt_bytes < tot_bytes` test in both branches and records whether
the block had already been freed. -/
def rr_serve (r : Rcb) (fileLen : Nat) (writeOk : Bool) : PolicyServeOutcome :=
  match scheduler_serve r fileLen writeOk with
  | .deleted r' evs =>
      if r'.snt_bytes < r'.tot_bytes then
        { deletedBySched := true, reenqueued := some r',
          destroyedByPolicy := false, events := evs }
      else
        { deletedBySched := true, reenqueued := none,
          destroyedByPolicy := true, events := evs }
  | .ok r' evs =>
      if r'.snt_bytes < r'.tot_bytes then
        { deletedBySched := false, reenqueued := some r',
          destroyedByPolicy := false, events := evs }
      else
        { deletedBySched := false, reenqueued := none,
          destroyedByPolicy := true, events := evs }

example : (rr_serve (rcb_new 1 4 true 16384) 16384 true).reenqueued =
    some { seq_num := 1, fd := 4, fileOpen := true, snt_bytes := 8192,
           tot_bytes := 16384, status := .rcb8K } := by decide

example : (rr_serve (rcb_new 1 4 true 16384) 16384 false).deletedBySched = true ∧
    (rr_serve (rcb_new 1 4 true 16384) 16384 false).reenqueued ≠ none := by decide

instance : Inhabited Rcb := ⟨rcb_new 0 0 false 0⟩

/-- Result of a policy `remove` (dequeue) call.  `fault` marks undefined
behaviour of the source (a NULL dereference or an out-of-bounds array
read); `empty` is a NULL return with the state untouched; `got` returns
an RCB together with the updated queue state. -/
inductive Dequeued (σ : Type) where
  | fault : Dequeued σ
  | empty (s : σ) : Dequeued σ
  | got (r : Rcb) (s : σ) : Dequeued σ
deriving Repr, DecidableEq

/-- `linkedlist_insert` from part_000 lines 403-413: append at the tail of
the singly-linked FIFO.  The C head/tail pointer pair with `next` links is
modelled as the list of queued RCBs from head to tail; the tail-append of
the source is `l ++ [r]`. -/
def linkedlist_insert (r : Rcb) (l : List Rcb) : List Rcb := l ++ [r]

/-- `linkedlist_remove` from part_000 lines 415-427: detach the head.  The
function performs no emptiness check: on an empty list `request` is NULL
and the final `request->next = NULL` dereferences it, so the empty case is
a `fault`. -/
def linkedlist_remove (l : List Rcb) : Dequeued (List Rcb) :=
  match l with
  | [] => .fault
  | r :: t => .got r t

/-- `rr_insert` from part_000: tail-append into the single RR FIFO. -/
def rr_insert (r : Rcb) (l : List Rcb) : List Rcb := linkedlist_insert r l

/-- `rr_remove` from part_000: detach the RR FIFO head. -/
def rr_remove (l : List Rcb) : Dequeued (List Rcb) := linkedlist_remove l

/-- The three MLQF tier FIFOs: `q0` is the 8K queue (`sched->rcbs[0/1]`),
`q1` the 64K queue (`rcbs[2/3]`), `q2` the RR queue (`rcbs[4/5]`). -/
structure MlqfState where
  q0 : List Rcb
  q1 : List Rcb
  q2 : List Rcb
deriving Repr, DecidableEq

/-- `mlqf_insert` from part_000 lines 498-511: append to the tier FIFO
selected by the RCB's `status` field. -/
def mlqf_insert (r : Rcb) (s : MlqfState) : MlqfState :=
  match r.status with
  | .rcb8K => { s with q0 := linkedlist_insert r s.q0 }
  | .rcb64K => { s with q1 := linkedlist_insert r s.q1 }
  | .rcbRR => { s with q2 := linkedlist_insert r s.q2 }

/-- `mlqf_remove` from part_000 lines 513-526: return the head of the
first non-empty tier queue, or NULL when all three are empty.  The
emptiness of each tier is checked before `linkedlist_remove` is invoked,
so this function never hits the latter's NULL dereference. -/
def mlqf_remove (s : MlqfState) : Dequeued MlqfState :=
  match s.q0 with
  | r :: t => .got r { s with q0 := t }
  | [] =>
    match s.q1 with
    | r :: t => .got r { s with q1 := t }
    | [] =>
      match s.q2 with
      | r :: t => .got r { s with q2 := t }
      | [] => .empty s

/-- `sjf_compare` from part_000 lines 271-278: three-way comparison of
`tot_bytes`. -/
def sjf_compare (r1 r2 : Rcb) : Int :=
  if r1.tot_bytes < r2.tot_bytes then -1
  else if r1.tot_bytes = r2.tot_bytes then 0
  else 1

/-- The SJF heap state: `rcbs` is the full allocated array (its length is
the C `capacity`), of which the first `rcb_count` slots are live heap
entries; the slots beyond `rcb_count` retain stale values exactly as the
C array does, because `sjf_remove`'s sift-down reads one of them through
an unguarded right-child index. -/
structure SjfState where
  rcbs : List Rcb
  rcb_count : Nat
deriving Repr, DecidableEq

/-- The live heap entries (slots `0 .. rcb_count-1`). -/
def SjfState.active (s : SjfState) : List Rcb := s.rcbs.take s.rcb_count

/-- The sift-up loop of `sjf_insert` (part_000 lines 293-306): starting
from the new slot `index`, move parents down while the parent does not
compare strictly below the inserted RCB, then store the RCB.  The first
argument is an iteration bound: each pass replaces `index` by
`(index - 1) / 2 ≤ index - 1`, so the invariant `index ≤ fuel` holds
throughout when started with `fuel = index`; at `fuel = 0` the invariant
forces `index = 0`, where the bound-0 branch coincides with the loop's
`index = 0` exit.  The wrapper `siftUp` supplies that bound, making this
an exact rendering of the C loop. -/
def siftUpAux (r : Rcb) : Nat → List Rcb → Nat → List Rcb
  | 0, arr, index => arr.set index r
  | fuel + 1, arr, index =>
    if 0 < index then
      let parent := (index - 1) / 2
      if sjf_compare (arr.getD parent default) r < 0 then arr.set index r
      else siftUpAux r fuel (arr.set index (arr.getD parent default)) parent
    else arr.set index r

/-- The sift-up loop of `sjf_insert`, entered at slot `index`. -/
def siftUp (arr : List Rcb) (r : Rcb) (index : Nat) : List Rcb :=
  siftUpAux r index arr index

/-- `sjf_insert` from part_000 lines 280-307: grow the array (realloc
doubling `capacity`) when full, then sift the new RCB up from slot
`rcb_count`.  The newly allocated half of a grown array is uninitialised
in C; the model fills it with `default`, which is never read before being
written. -/
def sjf_insert (r : Rcb) (s : SjfState) : SjfState :=
  let arr :=
    if s.rcbs.length ≤ s.rcb_count then s.rcbs ++ List.replicate s.rcbs.length default
    else s.rcbs
  { rcbs := siftUp arr r s.rcb_count, rcb_count := s.rcb_count + 1 }

/-- The sift-down loop of `sjf_remove` (part_000 lines 319-342),
transcribed branch for branch.  `count` is the already decremented
`rcb_count`.  Note the source's child selection: when the left child is
inside the heap and compares below `new_top`, the inner test
`rchild < rcb_count && cmp(rcbs[lchild], rcbs[rchild]) < 0` selects the
LEFT child only when the right child both exists and compares strictly
above the left; otherwise it selects `rchild` — even when
`rchild = count`, i.e. one past the live heap, where the array slot holds
a stale element.
The first argument is an iteration bound: a continuing pass needs
`lchild < count` or `rchild < count`, hence `index < count`, and moves to
a child index `> index`, so the invariant `fuel + index ≥ count + 1`
holds when started with `fuel = count + 1`; at `fuel = 0` the invariant
forces `index > count`, where both guards are false and the bound-0
branch coincides with the loop's exit `rcbs[index] = new_top`.  The
wrapper `siftDown` supplies that bound, making this an exact rendering
of the C loop. -/
def siftDownAux (count : Nat) (new_top : Rcb) : Nat → List Rcb → Nat → List Rcb
  | 0, arr, index => arr.set index new_top
  | fuel + 1, arr, index =>
    let lchild := 2 * index + 1
    let rchild := 2 * index + 2
    if lchild < count ∧ sjf_compare (arr.getD lchild default) new_top < 0 then
      if rchild < count ∧ sjf_compare (arr.getD lchild default) (arr.getD rchild default) < 0 then
        siftDownAux count new_top fuel (arr.set index (arr.getD lchild default)) lchild
      else
        siftDownAux count new_top fuel (arr.set index (arr.getD rchild default)) rchild
    else if rchild < count ∧ sjf_compare (arr.getD rchild default) new_top < 0 then
      siftDownAux count new_top fuel (arr.set index (arr.getD rchild default)) rchild
    else arr.set index new_top

/-- The sift-down loop of `sjf_remove`, entered at the root. -/
def siftDown (arr : List Rcb) (count : Nat) (new_top : Rcb) (index : Nat) : List Rcb :=
  siftDownAux count new_top (count + 1) arr index

/-- `sjf_remove` from part_000 lines 309-345: take the root, move the
last live element to the root, sift down.  On an empty heap the C code
executes `sched->rcbs[--sched->rcb_count]`, reading `rcbs[-1]` — an
out-of-bounds access, modelled as `fault`. -/
def sjf_remove (s : SjfState) : Dequeued SjfState :=
  match s.rcb_count with
  | 0 => .fault
  | count + 1 =>
    let request := s.rcbs.getD 0 default
    let new_top := s.rcbs.getD count default
    .got request { rcbs := siftDown s.rcbs count new_top 0, rcb_count := count }

/-- Decidable min-heap check on `tot_bytes` over the live slots: every
parent's key is at most each existing child's key. -/
def isMinHeap (l : List Rcb) : Bool :=
  (List.range l.length).all fun i =>
    (decide (l.length ≤ 2 * i + 1) ||
      decide ((l.getD i default).tot_bytes ≤ (l.getD (2 * i + 1) default).tot_bytes)) &&
    (decide (l.length ≤ 2 * i + 2) ||
      decide ((l.getD i default).tot_bytes ≤ (l.getD (2 * i + 2) default).tot_bytes))

/-- The `for (i = 0; i < 8; i++) scheduler_serve(request)` quantum loop of
`mlqf_serve`, generalised over the slice count.  `wok i` tells whether the
socket write of the i-th slice of this quantum succeeds.  The second
component records whether some slice called `delete` on the RCB; the C
code keeps calling `scheduler_serve` on the (freed) pointer afterwards,
which the model renders as continuing on the last field values. -/
def serveLoop (fileLen : Nat) : Nat → (Nat → Bool) → Rcb → Rcb × Bool
  | 0, _, r => (r, false)
  | n + 1, wok, r =>
    match scheduler_serve r fileLen (wok 0) with
    | .ok r' _ => serveLoop fileLen n (fun i => wok (i + 1)) r'
    | .deleted r' _ => ((serveLoop fileLen n (fun i => wok (i + 1)) r').1, true)

/-- Outcome of one `mlqf_serve` call: the RCB was handed back to
`sched->insert` (`requeued`) or destroyed by the branch's `delete`
(`destroyed`).  `deletedBySched` is true when `scheduler_serve` had
already freed the RCB inside the quantum (the source then still runs the
re-enqueue/delete decision on the stale pointer). -/
inductive MlqfOutcome where
  | requeued (r : Rcb) (deletedBySched : Bool) : MlqfOutcome
  | destroyed (r : Rcb) (deletedBySched : Bool) : MlqfOutcome
deriving Repr, DecidableEq

/-- `mlqf_serve` from part_000 lines 528-582.  RCB_8K runs one slice,
RCB_64K and RCB_RR run eight; an unfinished RCB_8K or RCB_64K quantum
executes `request->status++` before `sched->insert(request)`, an
unfinished RCB_RR quantum re-inserts unchanged.  (The `if (!request)
return;` guards of the source are dead: `request` is a by-value pointer
copy that never becomes NULL.) -/
def mlqf_serve (r : Rcb) (fileLen : Nat) (wok : Nat → Bool) : MlqfOutcome :=
  match r.status with
  | .rcb8K =>
    let res := serveLoop fileLen 1 wok r
    if res.1.snt_bytes < res.1.tot_bytes then
      .requeued { res.1 with status := res.1.status.succ } res.2
    else .destroyed res.1 res.2
  | .rcb64K =>
    let res := serveLoop fileLen 8 wok r
    if res.1.snt_bytes < res.1.tot_bytes then
      .requeued { res.1 with status := res.1.status.succ } res.2
    else .destroyed res.1 res.2
  | .rcbRR =>
    let res := serveLoop fileLen 8 wok r
    if res.1.snt_bytes < res.1.tot_bytes then
      .requeued res.1 res.2
    else .destroyed res.1 res.2

/-- Bytes and status lines as the client socket sees them, in order.
`header200`/`header404` are the status-line writes of the worker loop
(`scheduler_run`), `body` a data write from a serve slice, `completed`
the destruction of a finished RCB. -/
inductive WireEvent where
  | header200 (seq : Nat) : WireEvent
  | header404 (seq : Nat) : WireEvent
  | body (seq : Nat) (n : Nat) : WireEvent
  | completed (seq : Nat) : WireEvent
deriving Repr, DecidableEq

/-- The socket writes of a serve slice, tagged with the RCB's sequence
number. -/
def bodyEvents (seq : Nat) (evs : List IoEvent) : List WireEvent :=
  evs.filterMap fun e =>
    match e with
    | .sockWrite n => some (.body seq n)
    | _ => none

/-- The worker loop `scheduler_run` (part_000 lines 142-169) specialised
to the RR policy with one worker and no further arrivals, error-free I/O.
Each iteration dequeues the FIFO head, writes the status line
(`HTTP/1.1 200 OK\n\n` when `rcb->file` is non-NULL, else the 404 line)
— unconditionally, there is no started-flag guard — and calls `rr_serve`,
which re-enqueues the RCB at the tail when unfinished.  `fl seq` is the
length of the file behind the RCB with that sequence number; `fuel`
bounds the number of iterations (the loop itself never exits; with an
empty queue `scheduler_next` blocks forever, producing no further
events). -/
def rrWorkerRun (fl : Nat → Nat) : Nat → List Rcb → List WireEvent
  | 0, _ => []
  | _ + 1, [] => []
  | fuel + 1, r :: rest =>
    let hdr : WireEvent :=
      if r.fileOpen then .header200 r.seq_num else .header404 r.seq_num
    let out := rr_serve r (fl r.seq_num) true
    match out.reenqueued with
    | some r' => (hdr :: bodyEvents r.seq_num out.events) ++ rrWorkerRun fl fuel (rr_insert r' rest)
    | none => (hdr :: bodyEvents r.seq_num out.events) ++ [.completed r.seq_num] ++ rrWorkerRun fl fuel rest

/-- Number of status lines written for the RCB with sequence number
`seq` in a transcript. -/
def headerWrites (seq : Nat) (evs : List WireEvent) : Nat :=
  evs.countP fun e =>
    match e with
    | .header200 s => s = seq
    | .header404 s => s = seq
    | _ => false

example : rrWorkerRun (fun _ => 16384) 5 [rcb_new 1 4 true 16384] =
  [.header200 1, .body 1 8192, .header200 1, .body 1 8192, .completed 1] := by decide

/-- The three reply strings written by the dispatcher and worker loop. -/
def reply400 : String := "HTTP/1.1 400 Bad request\n\n"

/-- 404 status line written for a missing file. -/
def reply404 : String := "HTTP/1.1 404 File not found\n\n"

/-- 200 status line written before a file's contents. -/
def reply200 : String := "HTTP/1.1 200 OK\n\n"

/-- `strtok_r(buffer, " ", &brk)` tokenisation: split on the single
delimiter `' '`, dropping empty pieces (strtok skips delimiter runs and
returns NULL when nothing but delimiters remains). -/
def strtokSpace (s : String) : List String :=
  (s.split (· = ' ')).filter (· ≠ "")

/-- Socket-level actions `scheduler_insert` can perform on the client fd. -/
inductive SockEvent where
  | sockRead : SockEvent
  | wrote (s : String) : SockEvent
  | closed : SockEvent
deriving Repr, DecidableEq

/-- How one `scheduler_insert` call ended.  `abortProcess` is a call to
`abort()` — the whole server process terminates. -/
inductive InsertOutcome where
  | ignored : InsertOutcome
  | abortProcess : InsertOutcome
  | replied400 : InsertOutcome
  | replied404 : InsertOutcome
  | droppedAlloc : InsertOutcome
  | enqueued (r : Rcb) : InsertOutcome
deriving Repr, DecidableEq

/-- Dispatcher-visible scheduler state: the sequence-number counter
(`seq_num`, starting at 1) and the multiset of queued RCBs in insertion
order.  The policy-specific placement inside its structure is modelled
separately by the per-policy insert functions; for the dispatcher claims
only "which RCBs are queued" matters, so insertion is appended here. -/
structure SchedulerState where
  seq_num : Nat
  queued : List Rcb
deriving Repr, DecidableEq

/-- Environment for one `scheduler_insert` call: whether the static
scratch-buffer `calloc` succeeds, the return value of
`read(fd, buffer, MAX_HTTP_SIZE)`, the bytes read (the request line),
whether `stat` on the parsed path succeeds and the size it reports,
whether the RCB `calloc` succeeds, and whether `fopen` on the path
succeeds. -/
structure InsertEnv where
  bufAllocOk : Bool
  readResult : Int
  buffer : String
  statOk : Bool
  fileSize : Nat
  rcbAllocOk : Bool
  fopenOk : Bool
deriving Repr, DecidableEq

/-- Result of a `scheduler_insert` call: outcome, post state, socket
events in order. -/
structure InsertResult where
  outcome : InsertOutcome
  state : SchedulerState
  sock : List SockEvent
deriving Repr, DecidableEq

/-- `scheduler_insert` from part_000 lines 80-130.  Control flow of the
source, in order: reject `fd < 0` before any I/O; allocate the scratch
buffer (`abort()` on failure); `read` the request (`abort()` when the
result is ≤ 0); tokenise — a first token other than `GET` or a missing
second token gets the 400 reply and `close(fd)`; when the very first
token is NULL the 400 branch is skipped and `stat(++req)` runs on the
NULL path (`req` was initialised NULL), which fails with EFAULT, taking
the 404 branch; a failing `stat` gets the 404 reply and `close(fd)`;
otherwise an RCB is built from `seq_num++`, the fd and the stat size
(`new` returning NULL drops the request silently) and handed to
`sched->insert` under the mutex.  The path passed to `stat` is the
second token with its first character skipped (`++req`). -/
def scheduler_insert (fd : Int) (env : InsertEnv) (st : SchedulerState) : InsertResult :=
  if fd < 0 then
    { outcome := .ignored, state := st, sock := [] }
  else if ¬ env.bufAllocOk then
    { outcome := .abortProcess, state := st, sock := [] }
  else if env.readResult ≤ 0 then
    { outcome := .abortProcess, state := st, sock := [.sockRead] }
  else
    match strtokSpace env.buffer with
    | tmp :: rest =>
      if tmp ≠ "GET" ∨ rest = [] then
        { outcome := .replied400, state := st,
          sock := [.sockRead, .wrote reply400, .closed] }
      else if ¬ env.statOk then
        { outcome := .replied404, state := st,
          sock := [.sockRead, .wrote reply404, .closed] }
      else if ¬ env.rcbAllocOk then
        { outcome := .droppedAlloc, state := { st with seq_num := st.seq_num + 1 },
          sock := [.sockRead] }
      else
        let r := rcb_new st.seq_num fd env.fopenOk env.fileSize
        { outcome := .enqueued r,
          state := { seq_num := st.seq_num + 1, queued := st.queued ++ [r] },
          sock := [.sockRead] }
    | [] =>
      { outcome := .replied404, state := st,
        sock := [.sockRead, .wrote reply404, .closed] }

/-- Outcome of `main` in sws.c (part_002) up to entering the accept
loop. -/
inductive MainOutcome where
  | usageExit : MainOutcome
  | abortInit : MainOutcome
  | acceptLoop (schedInitialized : Bool) : MainOutcome
deriving Repr, DecidableEq

/-- `sscanf(s, "%d", &port) >= 1`: after skipping leading whitespace and
an optional sign there is at least one decimal digit. -/
def sscanfDMatches (s : String) : Bool :=
  let t := s.toList.dropWhile Char.isWhitespace
  let t := match t with
    | c :: rest => if c = '+' ∨ c = '-' then rest else c :: rest
    | [] => []
  match t with
  | c :: _ => c.isDigit
  | [] => false

/-- `strtol(s, NULL, 10)`: skip whitespace, optional sign, then the
maximal run of decimal digits; 0 when there are none.  (Long-range
clamping is irrelevant for the inputs considered.) -/
def strtol10 (s : String) : Int :=
  let t := s.toList.dropWhile Char.isWhitespace
  let (sign, t) :=
    match t with
    | '-' :: rest => ((-1 : Int), rest)
    | '+' :: rest => ((1 : Int), rest)
    | _ => ((1 : Int), t)
  let digits := t.takeWhile Char.isDigit
  sign * (digits.foldl (fun acc c => acc * 10 + (c.toNat - '0'.toNat)) (0 : Nat) : Nat)

/-- `scheduler_init` from part_000 lines 43-78, assuming allocations and
thread creation succeed: a NULL name or `thrd_count < 1` returns
immediately WITHOUT creating a scheduler (`some false`); a name other
than SJF/RR/MLQF calls `abort()` (`none`); otherwise the scheduler and
its thread are set up (`some true`). -/
def scheduler_init (name : String) (thrd_count : Int) : Option Bool :=
  if thrd_count < 1 then some false
  else if name = "SJF" ∨ name = "RR" ∨ name = "MLQF" then some true
  else none

/-- `main` from sws.c (part_002 lines 33-59) up to the accept loop:
fewer than 4 argv entries or a port that `sscanf("%d")` cannot match
print the usage text and `exit(EXIT_FAILURE)`; otherwise the thread
count is `strtol(argv[3], NULL, 10)` — unvalidated — and
`scheduler_init(argv[2], thread_count)` runs before the loop. -/
def sws_main (argv : List String) : MainOutcome :=
  if argv.length < 4 then .usageExit
  else if ¬ sscanfDMatches (argv.getD 1 "") then .usageExit
  else
    let thrd := strtol10 (argv.getD 3 "")
    match scheduler_init (argv.getD 2 "") thrd with
    | none => .abortInit
    | some b => .acceptLoop b

example : sws_main ["sws", "8080", "SJF", "4"] = .acceptLoop true := by decide

example : sws_main ["sws", "8080", "SJF", "0"] = .acceptLoop false := by decide

example : sws_main ["sws", "8080", "SJF"] = .usageExit := by decide

example : sws_main ["sws", "port", "SJF", "4"] = .usageExit := by decide

/-- The RCB field values after a `scheduler_serve` call, whether the call
returned normally or freed the block. -/
def ServeResult.rcb : ServeResult → Rcb
  | .deleted r _ => r
  | .ok r _ => r

theorem scheduler_serve_rcb (r : Rcb) (fileLen : Nat) (writeOk : Bool) :
    (scheduler_serve r fileLen writeOk).rcb =
      { r with snt_bytes := r.snt_bytes + min MAX_HTTP_SIZE (fileLen - r.snt_bytes) } := by
  by_cases h : 0 < min MAX_HTTP_SIZE (fileLen - r.snt_bytes) <;>
    by_cases hw : writeOk <;>
      simp [scheduler_serve, ServeResult.rcb, h, hw]

theorem serveLoop_fst (fileLen : Nat) (n : Nat) (wok : Nat → Bool) (r : Rcb) :
    (serveLoop fileLen (n + 1) wok r).1 =
      (serveLoop fileLen n (fun i => wok (i + 1)) ((scheduler_serve r fileLen (wok 0)).rcb)).1 := by
  cases h : scheduler_serve r fileLen (wok 0) <;>
    simp only [serveLoop, h, ServeResult.rcb]

theorem serveLoop_status (fileLen : Nat) :
    ∀ (n : Nat) (wok : Nat → Bool) (r : Rcb),
      ((serveLoop fileLen n wok r).1).status = r.status := by
  intro n
  induction n with
  | zero => intro wok r; rfl
  | succ m ih =>
    intro wok r
    rw [serveLoop_fst, ih, scheduler_serve_rcb]

theorem serveLoop_inv (fileLen : Nat) :
    ∀ (n : Nat) (wok : Nat → Bool) (r : Rcb),
      r.snt_bytes ≤ r.tot_bytes → fileLen = r.tot_bytes →
      r.snt_bytes ≤ (serveLoop fileLen n wok r).1.snt_bytes ∧
      (serveLoop fileLen n wok r).1.snt_bytes ≤ (serveLoop fileLen n wok r).1.tot_bytes ∧
      (serveLoop fileLen n wok r).1.tot_bytes = r.tot_bytes := by
  intro n
  induction n with
  | zero => intro wok r h1 h2; exact ⟨le_refl _, h1, rfl⟩
  | succ m ih =>
    intro wok r h1 h2
    rw [serveLoop_fst]
    have hr' := scheduler_serve_rcb r fileLen (wok 0)
    set r' := (scheduler_serve r fileLen (wok 0)).rcb with hdef
    have hsnt : r'.snt_bytes = r.snt_bytes + min MAX_HTTP_SIZE (fileLen - r.snt_bytes) := by
      rw [hr']
    have htot : r'.tot_bytes = r.tot_bytes := by rw [hr']
    have h1' : r'.snt_bytes ≤ r'.tot_bytes := by
      rw [hsnt, htot]; omega
    have h2' : fileLen = r'.tot_bytes := by rw [htot]; exact h2
    obtain ⟨a, b, c⟩ := ih (fun i => wok (i + 1)) r' h1' h2'
    refine ⟨?_, b, by rw [c, htot]⟩
    calc r.snt_bytes ≤ r'.snt_bytes := by rw [hsnt]; omega
    _ ≤ _ := a

/-- C10: for every fd < 0 passed to `scheduler_insert`, the call returns
immediately with no observable effect — no socket read or write, no RCB
constructed, the sequence-number counter not advanced, the queue state
unchanged. -/
theorem C10_negative_fd_no_effect (fd : Int) (env : InsertEnv) (st : SchedulerState)
    (h : fd < 0) :
    scheduler_insert fd env st = { outcome := .ignored, state := st, sock := [] } := by
  unfold scheduler_insert
  simp [h]

/-- Witness for C10 at fd = -1. -/
theorem C10_negative_fd_no_effect_witness :
    scheduler_insert (-1)
        { bufAllocOk := true, readResult := 1, buffer := "GET /index.html HTTP/1.1",
          statOk := true, fileSize := 100, rcbAllocOk := true, fopenOk := true }
        { seq_num := 1, queued := [] } =
      { outcome := .ignored, state := { seq_num := 1, queued := [] }, sock := [] } :=
  C10_negative_fd_no_effect (-1)
    { bufAllocOk := true, readResult := 1, buffer := "GET /index.html HTTP/1.1",
      statOk := true, fileSize := 100, rcbAllocOk := true, fopenOk := true }
    { seq_num := 1, queued := [] } (by decide)

/-- C1 as stated is false: a request read returning 0 (or an error)
makes `scheduler_insert` call `abort()`, terminating the whole server
process — here at fd = 5 with `read` returning 0. -/
theorem C1_read_failure_aborts :
    (scheduler_insert 5
        { bufAllocOk := true, readResult := 0, buffer := "",
          statOk := true, fileSize := 100, rcbAllocOk := true, fopenOk := true }
        { seq_num := 1, queued := [] }).outcome = .abortProcess := by decide

/-- C1 (amended): once the scratch-buffer allocation and the request read
have succeeded, no per-request failure terminates the server process —
the request is answered with 400 or 404, dropped on RCB allocation
failure, or enqueued; but a request read returning ≤ 0 (or a failed
scratch-buffer allocation) aborts the process. -/
theorem C1_no_abort_after_successful_read (fd : Int) (env : InsertEnv)
    (st : SchedulerState) (hbuf : env.bufAllocOk = true) (hread : 0 < env.readResult) :
    (scheduler_insert fd env st).outcome ≠ .abortProcess := by
  unfold scheduler_insert
  by_cases h1 : fd < 0
  · simp [h1]
  rw [if_neg h1]
  rw [if_neg (show ¬ (¬ env.bufAllocOk = true) by simp [hbuf])]
  rw [if_neg (show ¬ env.readResult ≤ 0 by omega)]
  cases htok : strtokSpace env.buffer with
  | nil => simp
  | cons tmp rest =>
    simp only []
    split_ifs <;> simp

/-- Witness for the amended C1 at fd = 5 with a well-formed GET. -/
theorem C1_no_abort_after_successful_read_witness :
    (scheduler_insert 5
        { bufAllocOk := true, readResult := 24, buffer := "GET /index.html HTTP/1.1",
          statOk := true, fileSize := 100, rcbAllocOk := true, fopenOk := true }
        { seq_num := 1, queued := [] }).outcome ≠ .abortProcess :=
  C1_no_abort_after_successful_read 5
    { bufAllocOk := true, readResult := 24, buffer := "GET /index.html HTTP/1.1",
      statOk := true, fileSize := 100, rcbAllocOk := true, fopenOk := true }
    { seq_num := 1, queued := [] } (by decide) (by decide)

/-- C3 is violated by the code: when the socket write of an RR slice
fails, `scheduler_serve` destroys the RCB (`delete` closes fd and file),
but `rr_serve` then reads the freed block through its stale by-value
pointer and re-enqueues it — at an RCB for a 16384-byte file failing its
first write, the destroyed RCB is passed to `sched->insert`. -/
theorem C3_write_error_reenqueues_freed_rcb :
    (rr_serve (rcb_new 1 4 true 16384) 16384 false).deletedBySched = true ∧
    (rr_serve (rcb_new 1 4 true 16384) 16384 false).reenqueued =
      some { seq_num := 1, fd := 4, fileOpen := true, snt_bytes := 8192,
             tot_bytes := 16384, status := .rcb8K } := by decide

/-- C2 is violated by the code: the worker loop `scheduler_run` writes
the status line on every dequeue with no started-RCB guard, so the
client of a completed 16384-byte RR request receives the
`HTTP/1.1 200 OK` line twice, the second interleaved into the file
bytes — the full wire transcript is header, 8192 bytes, header again,
8192 bytes, completion. -/
theorem C2_status_line_written_twice :
    rrWorkerRun (fun _ => 16384) 5 [rcb_new 1 4 true 16384] =
      [.header200 1, .body 1 8192, .header200 1, .body 1 8192, .completed 1] ∧
    headerWrites 1 (rrWorkerRun (fun _ => 16384) 5 [rcb_new 1 4 true 16384]) = 2 := by decide

/-- C4 is violated by the code: on the reachable heap [1,2,3] (built by
three `sjf_insert`s into an empty heap of capacity 3; the C capacity of
100 changes nothing, no slot beyond index 2 is touched), `sjf_remove`
returns the minimal root, but its sift-down takes the branch where the
left child is inside the heap and below the moved element while the
right child index equals the decremented count: the inner test
`rchild < rcb_count && ...` then selects the out-of-range RIGHT child
slot, so the resulting live array is [3,2] — the min-heap property on
tot_bytes does not hold afterwards — and the next `sjf_remove` returns
the RCB with tot_bytes 3 while the one with tot_bytes 2 is still
queued. -/
theorem C4_sift_down_selects_missing_right_child :
    (sjf_insert (rcb_new 3 5 true 3)
        (sjf_insert (rcb_new 2 4 true 2)
          (sjf_insert (rcb_new 1 3 true 1)
            ⟨List.replicate 3 default, 0⟩))).active =
      [rcb_new 1 3 true 1, rcb_new 2 4 true 2, rcb_new 3 5 true 3] ∧
    sjf_remove
        (sjf_insert (rcb_new 3 5 true 3)
          (sjf_insert (rcb_new 2 4 true 2)
            (sjf_insert (rcb_new 1 3 true 1)
              ⟨List.replicate 3 default, 0⟩))) =
      .got (rcb_new 1 3 true 1)
        ⟨[rcb_new 3 5 true 3, rcb_new 2 4 true 2, rcb_new 3 5 true 3], 2⟩ ∧
    (⟨[rcb_new 3 5 true 3, rcb_new 2 4 true 2, rcb_new 3 5 true 3], 2⟩ : SjfState).active =
      [rcb_new 3 5 true 3, rcb_new 2 4 true 2] ∧
    isMinHeap [rcb_new 3 5 true 3, rcb_new 2 4 true 2] = false ∧
    sjf_remove ⟨[rcb_new 3 5 true 3, rcb_new 2 4 true 2, rcb_new 3 5 true 3], 2⟩ =
      .got (rcb_new 3 5 true 3)
        ⟨[rcb_new 2 4 true 2, rcb_new 2 4 true 2, rcb_new 3 5 true 3], 1⟩ := by decide

/-- C5 as stated is false: the RR dequeue (`linkedlist_remove`) applied
to the empty FIFO does not return the empty result — it dereferences the
NULL head at `request->next = NULL` (a fault). -/
theorem C5_rr_empty_dequeue_faults : rr_remove [] = Dequeued.fault := by decide

/-- C5 (amended): on every non-empty state, each policy's dequeue
returns a queued RCB, and MLQF's dequeue returns the empty result on the
empty state; but on the empty state the RR dequeue dereferences NULL and
the SJF dequeue underflows `rcb_count` and reads out of bounds (both
faults) instead of returning empty — they are only ever invoked
non-empty because `scheduler_next` waits for `rcb_count ≥ 1`. -/
theorem C5_dequeue_empty_behaviour :
    (∀ (h : Rcb) (t : List Rcb), rr_remove (h :: t) = .got h t ∧ h ∈ h :: t) ∧
    (∀ s : MlqfState, s.q0 = [] → s.q1 = [] → s.q2 = [] → mlqf_remove s = .empty s) ∧
    (∀ s : MlqfState, s.q0 ≠ [] ∨ s.q1 ≠ [] ∨ s.q2 ≠ [] →
      ∃ r s', mlqf_remove s = .got r s' ∧ (r ∈ s.q0 ∨ r ∈ s.q1 ∨ r ∈ s.q2)) ∧
    (∀ s : SjfState, 0 < s.rcb_count →
      ∃ r s', sjf_remove s = .got r s' ∧ (s.rcbs ≠ [] → r ∈ s.active)) ∧
    rr_remove [] = Dequeued.fault ∧
    (∀ s : SjfState, s.rcb_count = 0 → sjf_remove s = Dequeued.fault) := by
  refine ⟨?_, ?_, ?_, ?_, by decide, ?_⟩
  · intro h t
    exact ⟨rfl, List.mem_cons_self h t⟩
  · rintro ⟨q0, q1, q2⟩ h0 h1 h2
    simp only at h0 h1 h2
    subst h0; subst h1; subst h2
    rfl
  · rintro ⟨q0, q1, q2⟩ hne
    cases q0 with
    | cons r t => exact ⟨r, _, rfl, Or.inl (List.mem_cons_self r t)⟩
    | nil =>
      cases q1 with
      | cons r t => exact ⟨r, _, rfl, Or.inr (Or.inl (List.mem_cons_self r t))⟩
      | nil =>
        cases q2 with
        | cons r t => exact ⟨r, _, rfl, Or.inr (Or.inr (List.mem_cons_self r t))⟩
        | nil => simp at hne
  · rintro ⟨arr, cnt⟩ hpos
    simp only at hpos
    cases cnt with
    | zero => omega
    | succ n =>
      refine ⟨arr.getD 0 default, _, rfl, ?_⟩
      intro harr
      cases arr with
      | nil => exact absurd rfl harr
      | cons a t =>
        simp only [List.getD, SjfState.active, List.take_succ_cons, List.get?_cons_zero,
          Option.getD_some]
        exact List.mem_cons_self a _
  · rintro ⟨arr, cnt⟩ h0
    simp only at h0
    subst h0
    rfl

/-- Witness for the amended C5: RR head dequeue, MLQF empty and
non-empty dequeue, and SJF non-empty dequeue at concrete states. -/
theorem C5_dequeue_empty_behaviour_witness :
    (rr_remove [rcb_new 1 4 true 5] = .got (rcb_new 1 4 true 5) [] ∧
      rcb_new 1 4 true 5 ∈ [rcb_new 1 4 true 5]) ∧
    mlqf_remove ⟨[], [], []⟩ = .empty ⟨[], [], []⟩ ∧
    (∃ r s', mlqf_remove ⟨[rcb_new 2 5 true 7], [], []⟩ = .got r s' ∧
      (r ∈ [rcb_new 2 5 true 7] ∨ r ∈ ([] : List Rcb) ∨ r ∈ ([] : List Rcb))) ∧
    (∃ r s', sjf_remove ⟨[rcb_new 3 6 true 9], 1⟩ = .got r s' ∧
      (([rcb_new 3 6 true 9] : List Rcb) ≠ [] →
        r ∈ (⟨[rcb_new 3 6 true 9], 1⟩ : SjfState).active)) ∧
    (∀ s : SjfState, s.rcb_count = 0 → sjf_remove s = Dequeued.fault) :=
  ⟨C5_dequeue_empty_behaviour.1 (rcb_new 1 4 true 5) [],
    C5_dequeue_empty_behaviour.2.1 ⟨[], [], []⟩ rfl rfl rfl,
    C5_dequeue_empty_behaviour.2.2.1 ⟨[rcb_new 2 5 true 7], [], []⟩ (by simp),
    C5_dequeue_empty_behaviour.2.2.2.1 ⟨[rcb_new 3 6 true 9], 1⟩ (by decide),
    C5_dequeue_empty_behaviour.2.2.2.2.2⟩

/-- C6 as stated is false: with `sws 8080 SJF 0` the thread count parses
to 0 < 1, yet `main` prints no usage message and does not exit —
`scheduler_init` returns without creating a scheduler and the process
enters the accept loop. -/
theorem C6_zero_thread_count_not_rejected :
    sws_main ["sws", "8080", "SJF", "0"] = .acceptLoop false ∧
    sws_main ["sws", "8080", "SJF", "0"] ≠ .usageExit := by decide

/-- C6 (amended): fewer than three arguments after the program name, or a
port `sscanf("%d")` cannot match, print the usage message and exit with a
non-zero status before any request is accepted; but a thread count that
parses below 1 is not rejected — `scheduler_init` returns without
initializing any scheduler and the process continues into the accept
loop. -/
theorem C6_usage_only_for_argc_and_port (argv : List String) :
    (argv.length < 4 → sws_main argv = .usageExit) ∧
    (sscanfDMatches (argv.getD 1 "") = false → sws_main argv = .usageExit) ∧
    (4 ≤ argv.length → sscanfDMatches (argv.getD 1 "") = true →
      strtol10 (argv.getD 3 "") < 1 → sws_main argv = .acceptLoop false) := by
  refine ⟨?_, ?_, ?_⟩
  · intro h
    unfold sws_main
    rw [if_pos h]
  · intro h
    unfold sws_main
    by_cases h4 : argv.length < 4
    · rw [if_pos h4]
    · have h' : ¬ sscanfDMatches (argv.getD 1 "") = true := by rw [h]; simp
      rw [if_neg h4, if_pos h']
  · intro h4 hport hthrd
    have hinit : scheduler_init (argv.getD 2 "") (strtol10 (argv.getD 3 "")) = some false := by
      unfold scheduler_init
      rw [if_pos hthrd]
    unfold sws_main
    have h' : ¬ ¬ sscanfDMatches (argv.getD 1 "") = true := by rw [hport]; simp
    rw [if_neg (show ¬ argv.length < 4 by omega), if_neg h']
    simp only [hinit]

/-- Witness for the amended C6 at the three argument vectors
`["sws"]`, `["sws","port","SJF","4"]` and `["sws","8080","SJF","0"]`. -/
theorem C6_usage_only_for_argc_and_port_witness :
    sws_main ["sws"] = .usageExit ∧
    sws_main ["sws", "port", "SJF", "4"] = .usageExit ∧
    sws_main ["sws", "8080", "SJF", "0"] = .acceptLoop false :=
  ⟨(C6_usage_only_for_argc_and_port ["sws"]).1 (by decide),
    (C6_usage_only_for_argc_and_port ["sws", "port", "SJF", "4"]).2.1 (by decide),
    (C6_usage_only_for_argc_and_port ["sws", "8080", "SJF", "0"]).2.2 (by decide) (by decide)
      (by decide)⟩

theorem mlqf_serve_8K (r : Rcb) (fileLen : Nat) (wok : Nat → Bool)
    (hr : r.status = .rcb8K) :
    mlqf_serve r fileLen wok =
      if (serveLoop fileLen 1 wok r).1.snt_bytes < (serveLoop fileLen 1 wok r).1.tot_bytes then
        .requeued { (serveLoop fileLen 1 wok r).1 with
          status := ((serveLoop fileLen 1 wok r).1).status.succ } (serveLoop fileLen 1 wok r).2
      else .destroyed (serveLoop fileLen 1 wok r).1 (serveLoop fileLen 1 wok r).2 := by
  unfold mlqf_serve
  rw [hr]

theorem mlqf_serve_64K (r : Rcb) (fileLen : Nat) (wok : Nat → Bool)
    (hr : r.status = .rcb64K) :
    mlqf_serve r fileLen wok =
      if (serveLoop fileLen 8 wok r).1.snt_bytes < (serveLoop fileLen 8 wok r).1.tot_bytes then
        .requeued { (serveLoop fileLen 8 wok r).1 with
          status := ((serveLoop fileLen 8 wok r).1).status.succ } (serveLoop fileLen 8 wok r).2
      else .destroyed (serveLoop fileLen 8 wok r).1 (serveLoop fileLen 8 wok r).2 := by
  unfold mlqf_serve
  rw [hr]

theorem mlqf_serve_RR (r : Rcb) (fileLen : Nat) (wok : Nat → Bool)
    (hr : r.status = .rcbRR) :
    mlqf_serve r fileLen wok =
      if (serveLoop fileLen 8 wok r).1.snt_bytes < (serveLoop fileLen 8 wok r).1.tot_bytes then
        .requeued (serveLoop fileLen 8 wok r).1 (serveLoop fileLen 8 wok r).2
      else .destroyed (serveLoop fileLen 8 wok r).1 (serveLoop fileLen 8 wok r).2 := by
  unfold mlqf_serve
  rw [hr]

/-- C7: under MLQF every RCB built at submission starts at tier T0
(RCB_8K) and `mlqf_insert` places a T0 RCB in the 8K queue; whenever
`mlqf_serve` re-inserts an RCB, the tier never decreases and never
exceeds T2 (RCB_RR): an unfinished T0 quantum re-inserts at exactly T1,
an unfinished T1 quantum at exactly T2, and an unfinished T2 quantum at
T2 unchanged. -/
theorem C7_mlqf_tier_monotone :
    (∀ (seq : Nat) (fd : Int) (fo : Bool) (tot : Nat),
      (rcb_new seq fd fo tot).status = QueueLevel.rcb8K) ∧
    (∀ (r : Rcb) (s : MlqfState), r.status = QueueLevel.rcb8K →
      mlqf_insert r s = { s with q0 := s.q0 ++ [r] }) ∧
    (∀ (r : Rcb) (fileLen : Nat) (wok : Nat → Bool) (r' : Rcb) (d : Bool),
      mlqf_serve r fileLen wok = .requeued r' d →
      r.status.toNat ≤ r'.status.toNat ∧ r'.status.toNat ≤ 2 ∧
      (r.status = QueueLevel.rcb8K → r'.status = QueueLevel.rcb64K) ∧
      (r.status = QueueLevel.rcb64K → r'.status = QueueLevel.rcbRR) ∧
      (r.status = QueueLevel.rcbRR → r'.status = QueueLevel.rcbRR)) := by
  refine ⟨fun _ _ _ _ => rfl, ?_, ?_⟩
  · intro r s hr
    unfold mlqf_insert
    rw [hr]
    rfl
  · intro r fileLen wok r' d h
    cases hr : r.status with
    | rcb8K =>
      rw [mlqf_serve_8K r fileLen wok hr] at h
      split_ifs at h with hc
      injection h with h1 _
      subst h1
      simp [hr, serveLoop_status, QueueLevel.succ, QueueLevel.toNat]
    | rcb64K =>
      rw [mlqf_serve_64K r fileLen wok hr] at h
      split_ifs at h with hc
      injection h with h1 _
      subst h1
      simp [hr, serveLoop_status, QueueLevel.succ, QueueLevel.toNat]
    | rcbRR =>
      rw [mlqf_serve_RR r fileLen wok hr] at h
      split_ifs at h with hc
      injection h with h1 _
      subst h1
      simp [hr, serveLoop_status, QueueLevel.toNat]

/-- Witness for C7: a fresh RCB for a 20000-byte file is T0,
`mlqf_insert` places it in the 8K queue, and after its unfinished first
quantum `mlqf_serve` hands it back at exactly tier T1. -/
theorem C7_mlqf_tier_monotone_witness :
    (rcb_new 1 4 true 20000).status = QueueLevel.rcb8K ∧
    mlqf_insert (rcb_new 1 4 true 20000) ⟨[], [], []⟩ =
      ⟨[rcb_new 1 4 true 20000], [], []⟩ ∧
    ({ seq_num := 1, fd := 4, fileOpen := true, snt_bytes := 8192, tot_bytes := 20000,
        status := QueueLevel.rcb64K } : Rcb).status = QueueLevel.rcb64K :=
  ⟨C7_mlqf_tier_monotone.1 1 4 true 20000,
    C7_mlqf_tier_monotone.2.1 (rcb_new 1 4 true 20000) ⟨[], [], []⟩ rfl,
    (C7_mlqf_tier_monotone.2.2 (rcb_new 1 4 true 20000) 20000 (fun _ => true)
      { seq_num := 1, fd := 4, fileOpen := true, snt_bytes := 8192, tot_bytes := 20000,
        status := QueueLevel.rcb64K } false rfl).2.2.1 rfl⟩

/-- C8: under RR, a serve invocation on an unfinished RCB whose file
holds `tot_bytes` bytes performs exactly one quantum — one `fread` of
`min 8192 (tot_bytes - snt_bytes) ≤ 8192` bytes followed by one socket
write of those bytes — and then, absent an I/O error, re-inserts the
updated RCB when `snt_bytes < tot_bytes` (and `rr_insert` appends at the
FIFO tail) and destroys it otherwise. -/
theorem C8_rr_serve_single_quantum (r : Rcb) (h : r.snt_bytes < r.tot_bytes) :
    (rr_serve r r.tot_bytes true).events =
      [.fileRead (min MAX_HTTP_SIZE (r.tot_bytes - r.snt_bytes)),
       .sockWrite (min MAX_HTTP_SIZE (r.tot_bytes - r.snt_bytes))] ∧
    min MAX_HTTP_SIZE (r.tot_bytes - r.snt_bytes) ≤ MAX_HTTP_SIZE ∧
    (rr_serve r r.tot_bytes true).deletedBySched = false ∧
    (r.snt_bytes + min MAX_HTTP_SIZE (r.tot_bytes - r.snt_bytes) < r.tot_bytes →
      (rr_serve r r.tot_bytes true).reenqueued =
        some { r with snt_bytes := r.snt_bytes + min MAX_HTTP_SIZE (r.tot_bytes - r.snt_bytes) } ∧
      (rr_serve r r.tot_bytes true).destroyedByPolicy = false) ∧
    (r.tot_bytes ≤ r.snt_bytes + min MAX_HTTP_SIZE (r.tot_bytes - r.snt_bytes) →
      (rr_serve r r.tot_bytes true).reenqueued = none ∧
      (rr_serve r r.tot_bytes true).destroyedByPolicy = true) ∧
    (∀ (q : List Rcb) (x : Rcb), rr_insert x q = q ++ [x]) := by
  have hlen : 0 < min MAX_HTTP_SIZE (r.tot_bytes - r.snt_bytes) := by
    simp only [MAX_HTTP_SIZE]
    omega
  have hserve : scheduler_serve r r.tot_bytes true =
      .ok { r with snt_bytes := r.snt_bytes + min MAX_HTTP_SIZE (r.tot_bytes - r.snt_bytes) }
        [.fileRead (min MAX_HTTP_SIZE (r.tot_bytes - r.snt_bytes)),
         .sockWrite (min MAX_HTTP_SIZE (r.tot_bytes - r.snt_bytes))] := by
    simp [scheduler_serve, hlen]
  unfold rr_serve
  rw [hserve]
  dsimp only
  split_ifs with hc
  · exact ⟨rfl, Nat.min_le_left _ _, rfl, fun _ => ⟨rfl, rfl⟩,
      fun hdone => absurd hc (by omega), fun q x => rfl⟩
  · exact ⟨rfl, Nat.min_le_left _ _, rfl, fun hlt => absurd hlt hc,
      fun _ => ⟨rfl, rfl⟩, fun q x => rfl⟩

/-- Witness for C8: an RCB for a 100-byte file finishes in its single
quantum (one 100-byte read+write) and is destroyed, and `rr_insert`
appends at the tail. -/
theorem C8_rr_serve_single_quantum_witness :
    (rr_serve (rcb_new 1 4 true 100) 100 true).events =
      [IoEvent.fileRead 100, IoEvent.sockWrite 100] ∧
    (rr_serve (rcb_new 1 4 true 100) 100 true).reenqueued = none ∧
    (rr_serve (rcb_new 1 4 true 100) 100 true).destroyedByPolicy = true ∧
    rr_insert (rcb_new 2 5 true 7) [] = [rcb_new 2 5 true 7] :=
  ⟨(C8_rr_serve_single_quantum (rcb_new 1 4 true 100) (by decide)).1,
    ((C8_rr_serve_single_quantum (rcb_new 1 4 true 100) (by decide)).2.2.2.2.1 (by decide)).1,
    ((C8_rr_serve_single_quantum (rcb_new 1 4 true 100) (by decide)).2.2.2.2.1 (by decide)).2,
    (C8_rr_serve_single_quantum (rcb_new 1 4 true 100) (by decide)).2.2.2.2.2 []
      (rcb_new 2 5 true 7)⟩

/-- C9: for an RCB whose file holds exactly `tot_bytes` bytes and with
`snt_bytes ≤ tot_bytes`, one `scheduler_serve` slice — the step shared by
all three policies — keeps `snt_bytes` between its old value and
`tot_bytes` (so `0 ≤ snt_bytes ≤ tot_bytes` always holds and `snt_bytes`
is nondecreasing), leaves `tot_bytes` unchanged, and the completion test
`!(snt_bytes < tot_bytes)` used by every policy's serve holds exactly
when `snt_bytes = tot_bytes`; the same holds across any `serveLoop`
quantum of `n` slices. -/
theorem C9_snt_bytes_invariant (r : Rcb) (fileLen n : Nat) (writeOk : Bool)
    (wok : Nat → Bool) (hfile : fileLen = r.tot_bytes) (hinv : r.snt_bytes ≤ r.tot_bytes) :
    (r.snt_bytes ≤ ((scheduler_serve r fileLen writeOk).rcb).snt_bytes ∧
      ((scheduler_serve r fileLen writeOk).rcb).snt_bytes ≤
        ((scheduler_serve r fileLen writeOk).rcb).tot_bytes ∧
      ((scheduler_serve r fileLen writeOk).rcb).tot_bytes = r.tot_bytes ∧
      (¬ ((scheduler_serve r fileLen writeOk).rcb).snt_bytes <
          ((scheduler_serve r fileLen writeOk).rcb).tot_bytes ↔
        ((scheduler_serve r fileLen writeOk).rcb).snt_bytes =
          ((scheduler_serve r fileLen writeOk).rcb).tot_bytes)) ∧
    (r.snt_bytes ≤ (serveLoop fileLen n wok r).1.snt_bytes ∧
      (serveLoop fileLen n wok r).1.snt_bytes ≤ (serveLoop fileLen n wok r).1.tot_bytes ∧
      (serveLoop fileLen n wok r).1.tot_bytes = r.tot_bytes ∧
      (¬ (serveLoop fileLen n wok r).1.snt_bytes < (serveLoop fileLen n wok r).1.tot_bytes ↔
        (serveLoop fileLen n wok r).1.snt_bytes = (serveLoop fileLen n wok r).1.tot_bytes)) := by
  constructor
  · rw [scheduler_serve_rcb]
    dsimp only
    subst hfile
    refine ⟨by omega, by omega, rfl, by omega⟩
  · obtain ⟨a, b, c⟩ := serveLoop_inv fileLen n wok r hinv hfile
    exact ⟨a, b, c, by omega⟩

/-- Witness for C9 at an RCB for a 100-byte file, one slice and a
3-slice quantum with error-free writes. -/
theorem C9_snt_bytes_invariant_witness :
    ((rcb_new 1 4 true 100).snt_bytes ≤
        ((scheduler_serve (rcb_new 1 4 true 100) 100 true).rcb).snt_bytes ∧
      ((scheduler_serve (rcb_new 1 4 true 100) 100 true).rcb).snt_bytes ≤
        ((scheduler_serve (rcb_new 1 4 true 100) 100 true).rcb).tot_bytes ∧
      ((scheduler_serve (rcb_new 1 4 true 100) 100 true).rcb).tot_bytes =
        (rcb_new 1 4 true 100).tot_bytes ∧
      (¬ ((scheduler_serve (rcb_new 1 4 true 100) 100 true).rcb).snt_bytes <
          ((scheduler_serve (rcb_new 1 4 true 100) 100 true).rcb).tot_bytes ↔
        ((scheduler_serve (rcb_new 1 4 true 100) 100 true).rcb).snt_bytes =
          ((scheduler_serve (rcb_new 1 4 true 100) 100 true).rcb).tot_bytes)) ∧
    ((rcb_new 1 4 true 100).snt_bytes ≤
        (serveLoop 100 3 (fun _ => true) (rcb_new 1 4 true 100)).1.snt_bytes ∧
      (serveLoop 100 3 (fun _ => true) (rcb_new 1 4 true 100)).1.snt_bytes ≤
        (serveLoop 100 3 (fun _ => true) (rcb_new 1 4 true 100)).1.tot_bytes ∧
      (serveLoop 100 3 (fun _ => true) (rcb_new 1 4 true 100)).1.tot_bytes =
        (rcb_new 1 4 true 100).tot_bytes ∧
      (¬ (serveLoop 100 3 (fun _ => true) (rcb_new 1 4 true 100)).1.snt_bytes <
          (serveLoop 100 3 (fun _ => true) (rcb_new 1 4 true 100)).1.tot_bytes ↔
        (serveLoop 100 3 (fun _ => true) (rcb_new 1 4 true 100)).1.snt_bytes =
          (serveLoop 100 3 (fun _ => true) (rcb_new 1 4 true 100)).1.tot_bytes)) :=
  C9_snt_bytes_invariant (rcb_new 1 4 true 100) 100 3 true (fun _ => true) rfl (by decide)
